import Mathlib

/-
Shallow embedding of the request-guard and session/ticket layer of the
SemoxyMC/Server repository (files src/semoxy/util.py and
src/semoxy/endpoints/auth.py). Python dicts of JSON data are modelled as
ordered association lists, HTTP responses as a body/status pair, and
exceptions that escape a handler (KeyError, AttributeError, TypeError) as
the error side of an Except value. Collaborators that are not part of the
shown sources (the document store, password hashing, sanic body parsing)
enter as explicit function parameters of the endpoint models.
-/

namespace Semoxy

/-- JSON values as parsed from a request body by the framework. Python
dicts preserve insertion order, so objects are ordered association lists. -/
inductive Json where
  | null : Json
  | bool (b : Bool) : Json
  | num (n : Int) : Json
  | str (s : String) : Json
  | arr (xs : List Json) : Json
  | obj (fields : List (String × Json)) : Json

/-- Lookup of a key in an ordered association list, first match wins
(the semantics of Python dict indexing once duplicate keys are collapsed). -/
def assocLookup : List (String × Json) → String → Option Json
  | [], _ => none
  | (k, v) :: rest, key => if k = key then some v else assocLookup rest key

/-- Lookup of a key of a JSON object; yields none on non-objects. -/
def objLookup (j : Json) (key : String) : Option Json :=
  match j with
  | Json.obj fields => assocLookup fields key
  | _ => none

/-- Python dict update semantics for a single key, as performed by a dict
display such as one holding unpacked entries followed by literal entries:
when the key is already present its value is replaced in place (insertion
position kept), otherwise the pair is appended at the end. -/
def dictInsert (d : List (String × Json)) (key : String) (v : Json) : List (String × Json) :=
  if key ∈ d.map Prod.fst then
    d.map (fun p => if p.1 = key then (key, v) else p)
  else
    d ++ [(key, v)]

/-- A sanic HTTPResponse produced by the json helper: the serialized JSON
body and the HTTP status code. -/
structure HTTPResponse where
  body : Json
  status : Nat

/-- Python exceptions that can escape the modelled handlers. -/
inductive PyExc where
  | keyError (key : String) : PyExc
  | attributeError (msg : String) : PyExc
  | typeError (msg : String) : PyExc
deriving DecidableEq, Repr

/-- Result of running a (possibly guarded) handler: either a response or an
uncaught Python exception. -/
abbrev PyResult := Except PyExc HTTPResponse

/-- Model of util.json_response / the json_res helper imported by
endpoints/auth.py: builds a response from a JSON body and a status code
(sanic defaults the status to 200, made explicit here). -/
def json_res (di : Json) (status : Nat) : HTTPResponse :=
  HTTPResponse.mk di status

/-- The APIError constants of util.py lines 22 to 44: each taxonomy entry
is a pair of its stable string code and its HTTP status. -/
def APIError.ROOT_DISABLED : String × Nat := ("root_disabled", 400)

def APIError.INVALID_CREDENTIALS : String × Nat := ("invalid_credentials", 401)

def APIError.ALREADY_EXISTING : String × Nat := ("already_existing", 400)

def APIError.INVALID_NAME : String × Nat := ("invalid_name", 400)

def APIError.PORT_IN_USE : String × Nat := ("port_in_use", 423)

def APIError.INVALID_SORT_DIRECTION : String × Nat := ("invalid_sort_direction", 400)

def APIError.UNKNOWN : String × Nat := ("unknown", 500)

def APIError.INVALID_VERSION : String × Nat := ("invalid_version", 400)

def APIError.TOO_MUCH_RAM : String × Nat := ("too_much_ram", 400)

def APIError.INVALID_PORT_TYPE : String × Nat := ("invalid_port_type", 400)

def APIError.INVALID_PORT : String × Nat := ("invalid_port", 400)

def APIError.ILLEGAL_SERVER_NAME : String × Nat := ("illegal_server_name", 400)

def APIError.INVALID_JAVA_VERSION : String × Nat := ("invalid_java_version", 400)

def APIError.SERVER_VERSION_POST_INSTALL : String × Nat := ("server_version_post_install", 500)

def APIError.MISSING_VALUE : String × Nat := ("missing_value", 400)

def APIError.INVALID_SERVER : String × Nat := ("invalid_server", 404)

def APIError.INVALID_SERVER_STATUS : String × Nat := ("invalid_server_status", 423)

def APIError.UNAUTHENTICATED : String × Nat := ("unauthenticated", 401)

def APIError.NO_PERMISSION : String × Nat := ("no_permission", 403)

def APIError.INVALID_SESSION : String × Nat := ("invalid_session", 401)

def APIError.SESSION_EXPIRED : String × Nat := ("session_expired", 401)

def APIError.INVALID_PAYLOAD_SCHEMA : String × Nat := ("invalid_payload_schema", 400)

/-- The whole taxonomy, in the declaration order of util.py. -/
def APIError.all : List (String × Nat) :=
  [APIError.ROOT_DISABLED, APIError.INVALID_CREDENTIALS, APIError.ALREADY_EXISTING,
   APIError.INVALID_NAME, APIError.PORT_IN_USE, APIError.INVALID_SORT_DIRECTION,
   APIError.UNKNOWN, APIError.INVALID_VERSION, APIError.TOO_MUCH_RAM,
   APIError.INVALID_PORT_TYPE, APIError.INVALID_PORT, APIError.ILLEGAL_SERVER_NAME,
   APIError.INVALID_JAVA_VERSION, APIError.SERVER_VERSION_POST_INSTALL,
   APIError.MISSING_VALUE, APIError.INVALID_SERVER, APIError.INVALID_SERVER_STATUS,
   APIError.UNAUTHENTICATED, APIError.NO_PERMISSION, APIError.INVALID_SESSION,
   APIError.SESSION_EXPIRED, APIError.INVALID_PAYLOAD_SCHEMA]

/-- Model of util.json_error (util.py lines 47 to 59): the body is the dict
display holding the unpacked additional entries followed by the literal
error entry, whose value is the string err_ plus a space plus the code, and
the literal description entry; the status is the second component of the
taxonomy pair. Total by construction: every value of the Json type is
serializable, so no further error can arise. -/
def json_error (error : String × Nat) (description : String) (additional : List (String × Json)) : HTTPResponse :=
  json_res
    (Json.obj
      (dictInsert (dictInsert additional "error" (Json.str ("err_ " ++ error.1)))
        "description" (Json.str description)))
    error.2

/-- A session record (spec section 3): owning user id and absolute
expiration; the opaque sid is what the logout and login handlers touch. -/
structure SessionRec where
  sid : String
  userId : String
  expiration : Int
deriving DecidableEq, Repr

/-- A user record as the guards see it: name and permission names. -/
structure UserRec where
  name : String
  permissions : List String
deriving DecidableEq, Repr

/-- The resolved managed resource: only its running flag is read by the
guards. -/
structure ServerRec where
  running : Bool
deriving DecidableEq, Repr

/-- A websocket ticket as returned by the create_ticket collaborator:
token plus the origin address and agent string it was bound to. -/
structure WebsocketTicket where
  token : String
  address : String
  agent : String
deriving DecidableEq, Repr

/-- The per-request context req.ctx, as resolved before the guards run. -/
structure Ctx where
  session : Option SessionRec
  user : Option UserRec
  server : Option ServerRec
deriving DecidableEq

/-- The request as the guards and handlers observe it: context, parsed
JSON body, header list, and origin ip. -/
structure Request where
  ctx : Ctx
  json : Json
  headers : List (String × String)
  ip : String

/-- Default value of the logged_in parameter of requires_login
(util.py line 183). -/
def requires_login_default : Bool := true

/-- Model of util.requires_login (lines 183 to 197): when logged_in is true
and no user is resolved (req.ctx.user is falsy) it answers UNAUTHENTICATED;
when logged_in is false and a user is resolved it answers NO_PERMISSION;
otherwise it invokes the wrapped handler on the unchanged request. -/
def requires_login (logged_in : Bool) (f : Request → PyResult) (req : Request) : PyResult :=
  if logged_in && req.ctx.user.isNone then
    Except.ok (json_error APIError.UNAUTHENTICATED "you need to be logged in to access this endpoint" [])
  else if !logged_in && req.ctx.user.isSome then
    Except.ok (json_error APIError.NO_PERMISSION "you can\x27t use this endpoint while logged in" [])
  else
    f req

/-- Abstraction of the key walk on an object payload: the first declared
key absent from the payload keys, if any; used only to state which field
the guard reports. -/
def first_missing_key : List String → List (String × Json) → Option String
  | [], _ => none
  | k :: rest, fields =>
    if k ∈ fields.map Prod.fst then first_missing_key rest fields
    else some k

/-- The for loop of util.requires_post_params (lines 175 to 177), iteration
by iteration: each pass evaluates req.json.keys() afresh, so a non-object
payload raises AttributeError only once some declared key is examined; the
first declared key absent from the payload keys returns the MISSING_VALUE
response from inside the loop; running off the end of the key list falls
through (none) without ever touching the payload again. -/
def requires_post_params_loop (json_keys : List String) (j : Json) :
    Except PyExc (Option HTTPResponse) :=
  match json_keys with
  | [] => Except.ok none
  | prop :: rest =>
    match j with
    | Json.obj fields =>
      if prop ∈ fields.map Prod.fst then requires_post_params_loop rest j
      else
        Except.ok (some (json_error APIError.MISSING_VALUE ("you need to specify " ++ prop)
          [("field", Json.str prop)]))
    | _ => Except.error (PyExc.attributeError "keys")

/-- Model of util.requires_post_params (lines 167 to 180): run the loop
over the declared keys; a response produced inside the loop is returned, a
raised exception propagates, and falling through the loop invokes the
handler on the unchanged request. With no declared keys the loop body never
runs, the payload is never accessed, and the handler always runs. -/
def requires_post_params (json_keys : List String) (f : Request → PyResult) (req : Request) : PyResult :=
  match requires_post_params_loop json_keys req.json with
  | Except.error e => Except.error e
  | Except.ok (some resp) => Except.ok resp
  | Except.ok none => f req

/-- Model of util.requires_server_online (lines 138 to 151): compares the
resolved resource running flag with the online argument; on mismatch
answers INVALID_SERVER_STATUS, else invokes the handler. When no resource
was attached by the resolution guard the attribute access raises. -/
def requires_server_online (online : Bool) (f : Request → PyResult) (req : Request) : PyResult :=
  match req.ctx.server with
  | none => Except.error (PyExc.attributeError "server")
  | some s =>
    if online != s.running then
      Except.ok (json_error APIError.INVALID_SERVER_STATUS
        ("this endpoint requires the server to be " ++ (if online then "online" else "offline")) [])
    else f req

/-- Model of util.bind_model (lines 154 to 164): the pydantic construction
model(**req.json) is abstracted into the validate parameter, which either
yields the typed object or the structured list given by e.errors(). On a
non-object payload the double-star unpacking raises TypeError before
pydantic runs, so no taxonomy error is produced. -/
def bind_model {α : Type} (validate : List (String × Json) → Except (List Json) α)
    (f : Request → α → PyResult) (req : Request) : PyResult :=
  match req.json with
  | Json.obj fields =>
    match validate fields with
    | Except.error errs =>
      Except.ok (json_error APIError.INVALID_PAYLOAD_SCHEMA "invalid payload type" [("errors", Json.arr errs)])
    | Except.ok data => f req data
  | _ => Except.error (PyExc.typeError "argument after ** must be a mapping")

/-- Python subscript access req.json[key]: KeyError on a dict missing the
key, TypeError when the payload is not a dict at all. -/
def objGetExc (j : Json) (key : String) : Except PyExc Json :=
  match j with
  | Json.obj fields =>
    match assocLookup fields key with
    | some v => Except.ok v
    | none => Except.error (PyExc.keyError key)
  | _ => Except.error (PyExc.typeError "object is not subscriptable")

/-- Python str() applied to a parsed JSON value, as in
str(req.json[\x22password\x22]). Primitive values follow the Python
renderings; container renderings are abbreviated here, and no theorem in
this file depends on them. -/
def pyStr : Json → String
  | Json.null => "None"
  | Json.bool true => "True"
  | Json.bool false => "False"
  | Json.num n => toString n
  | Json.str s => s
  | Json.arr _ => "[...]"
  | Json.obj _ => "..."

/-- The literal fall-through response of login_post (auth.py line 25):
the same dict and the same 401 status whatever internal check failed. -/
def wrong_credentials_response : HTTPResponse :=
  json_res
    (Json.obj
      [("error", Json.str "Wrong Credentials"), ("status", Json.num 401),
       ("description", Json.str "either username or password are wrong")])
    401

/-- Model of the login_post handler body (auth.py lines 16 to 25). The
store collaborators User.fetch_by_name, check_password and create_session
live in a source file outside src and enter as parameters; the handler
logic itself is translated from auth.py: fetch the user named by the
username payload field, and only when one is found check the stringified
password; on success create a session and answer its sid, on any failure
fall through to the single wrong-credentials response. -/
def login_post (fetch_by_name : Json → Option UserRec)
    (check_password : UserRec → String → Bool)
    (create_session : UserRec → SessionRec)
    (req : Request) : PyResult :=
  match objGetExc req.json "username" with
  | Except.error e => Except.error e
  | Except.ok uname =>
    match fetch_by_name uname with
    | some user =>
      match objGetExc req.json "password" with
      | Except.error e => Except.error e
      | Except.ok pw =>
        if check_password user (pyStr pw) then
          let session := create_session user
          Except.ok (json_res
            (Json.obj
              [("success", Json.str "logged in successfully"),
               ("data", Json.obj [("sessionId", Json.str session.sid)])])
            200)
        else Except.ok wrong_credentials_response
    | none => Except.ok wrong_credentials_response

/-- Model of the check_session handler (auth.py lines 40 to 48): start from
the loggedIn flag, append expiration and userId exactly when a session is
resolved, and answer with the default 200 status. -/
def check_session (req : Request) : HTTPResponse :=
  let out := [("loggedIn", Json.bool req.ctx.session.isSome)]
  let out :=
    match req.ctx.session with
    | some s => out ++ [("expiration", Json.num s.expiration), ("userId", Json.str s.userId)]
    | none => out
  json_res (Json.obj out) 200

/-- ASCII lower-casing of a character code, enough for header names. -/
def lowerCode (c : Char) : Nat :=
  if 65 ≤ c.toNat ∧ c.toNat ≤ 90 then c.toNat + 32 else c.toNat

/-- Case-insensitive string comparison on lower-cased character codes. -/
def ciEq (a b : String) : Bool :=
  a.data.map lowerCode == b.data.map lowerCode

/-- Case-insensitive header lookup, the getitem of the sanic header
multidict: the value of the first matching header, KeyError when the
header is absent. -/
def headers_getitem (headers : List (String × String)) (key : String) : Except PyExc String :=
  match headers.find? (fun p => ciEq p.1 key) with
  | some p => Except.ok p.2
  | none => Except.error (PyExc.keyError key)

/-- Model of the open_ticket handler body (auth.py lines 72 to 74). The
create_ticket store collaborator enters as a parameter taking the user,
the origin ip and the agent string. The agent argument is the Python
expression req.headers[User-Agent] or the literal unknown agent string:
the subscript raises KeyError when the header is absent, and the or
fallback applies only to a present but empty header value. -/
def open_ticket (create_ticket : UserRec → String → String → WebsocketTicket)
    (req : Request) : PyResult :=
  match req.ctx.user with
  | none => Except.error (PyExc.attributeError "user")
  | some user =>
    match headers_getitem req.headers "User-Agent" with
    | Except.error e => Except.error e
    | Except.ok ua =>
      let agent := if ua = "" then "unknown agent" else ua
      let ticket := create_ticket user req.ip agent
      Except.ok (json_res
        (Json.obj
          [("success", Json.str "ticket created"),
           ("data", Json.obj [("token", Json.str ticket.token)])])
        200)

/-- The collision loop of get_new_ticket (auth.py lines 77 to 81), with the
candidate stream made explicit: token_urlsafe i is the i-th generated
candidate and the db collection is the list of unconsumed ticket tokens the
find_one query matches against. The fuel argument bounds the otherwise
unbounded while loop; a some answer carries the returned token together
with the index of the candidate that was accepted. -/
def get_new_ticket_loop (db_wsticket : List String) (token_urlsafe : Nat → String) :
    Nat → Nat → Option (String × Nat)
  | 0, _ => none
  | Nat.succ fuel, i =>
    let ticket := token_urlsafe i
    if ticket ∈ db_wsticket then get_new_ticket_loop db_wsticket token_urlsafe fuel (i + 1)
    else some (ticket, i)

/-- Model of get_new_ticket (auth.py lines 77 to 81): generate the first
candidate and keep regenerating while the store still holds an unconsumed
ticket with that exact value. -/
def get_new_ticket (db_wsticket : List String) (token_urlsafe : Nat → String) (fuel : Nat) :
    Option (String × Nat) :=
  get_new_ticket_loop db_wsticket token_urlsafe fuel 0

/-- Request variant whose resolved resource has its running flag set to the
given value, leaving everything else alone; used to state that flipping the
flag flips the resource-state guard decision. -/
def set_server_running (req : Request) (b : Bool) : Request :=
  Request.mk (Ctx.mk req.ctx.session req.ctx.user (some (ServerRec.mk b))) req.json req.headers req.ip

/-- Sample handler answering an empty 200 response. -/
def fOk : Request → PyResult := fun _ => Except.ok (json_res Json.null 200)

/-- Second sample handler, distinguishable from the first by its status. -/
def fErr : Request → PyResult := fun _ => Except.ok (json_res Json.null 201)

/-- Sample registered user. -/
def sampleUser : UserRec := UserRec.mk "bob" []

/-- Sample request with no resolved session or user and an empty payload. -/
def reqAnon : Request := ⟨⟨none, none, none⟩, Json.obj [], [], "127.0.0.1"⟩

/-- Sample request with a resolved user. -/
def reqAuth : Request := ⟨⟨none, some sampleUser, none⟩, Json.obj [], [], "127.0.0.1"⟩

/-- Sample request whose payload has key a but not key b. -/
def reqMissingB : Request := ⟨⟨none, some sampleUser, none⟩, Json.obj [("a", Json.null)], [], "127.0.0.1"⟩

/-- Sample request whose parsed body is not a JSON object. -/
def reqNonObj : Request := ⟨⟨none, some sampleUser, none⟩, Json.null, [], "127.0.0.1"⟩

/-- Sample request carrying a resolved resource that is not running. -/
def reqSrvOff : Request := ⟨⟨none, some sampleUser, some (ServerRec.mk false)⟩, Json.obj [], [], "127.0.0.1"⟩

/-- Sample store lookup knowing exactly the user named bob. -/
def fetchW : Json → Option UserRec :=
  fun j =>
    match j with
    | Json.str s => if s = "bob" then some sampleUser else none
    | _ => none

/-- Sample password check accepting only one password. -/
def checkW : UserRec → String → Bool := fun _ p => p == "hunter2"

/-- Sample session factory. -/
def mkSessW : UserRec → SessionRec := fun u => SessionRec.mk "sid-1" u.name 123

/-- Sample login request naming an unknown user. -/
def reqLogin1 : Request :=
  ⟨⟨none, none, none⟩, Json.obj [("username", Json.str "alice"), ("password", Json.str "pw")], [], "127.0.0.1"⟩

/-- Sample login request naming a known user with a wrong password. -/
def reqLogin2 : Request :=
  ⟨⟨none, none, none⟩, Json.obj [("username", Json.str "bob"), ("password", Json.str "wrong")], [], "127.0.0.1"⟩

/-- Sample schema validation that always fails with an empty violation list. -/
def valW : List (String × Json) → Except (List Json) Unit := fun _ => Except.error []

/-- Sample handler for the schema-binding guard. -/
def f2W : Request → Unit → PyResult := fun _ _ => Except.ok (json_res Json.null 200)

/-- Sample unconsumed-ticket store holding one token. -/
def dbW : List String := ["x"]

/-- Sample candidate stream whose first candidate collides with the store. -/
def genW : Nat → String := fun n => match n with | 0 => "x" | _ => "y"

/-- Sample ticket factory that records the agent string into the token, so
the response makes the agent argument observable. -/
def sampleTicketGen : UserRec → String → String → WebsocketTicket :=
  fun _ addr agent => WebsocketTicket.mk agent addr agent

/-- Sample authenticated request without a User-Agent header. -/
def reqNoAgent : Request := ⟨⟨none, some sampleUser, none⟩, Json.obj [], [("Accept", "json")], "1.2.3.4"⟩

/-- Sample authenticated request whose User-Agent header is present but empty. -/
def reqEmptyAgent : Request := ⟨⟨none, some sampleUser, none⟩, Json.obj [], [("User-Agent", "")], "1.2.3.4"⟩

/-- Unfolding equation of assocLookup on a cons cell. -/
theorem assocLookup_cons (k : String) (v : Json) (rest : List (String × Json)) (key : String) :
    assocLookup ((k, v) :: rest) key = if k = key then some v else assocLookup rest key := rfl

/-- A key outside the key list of an association list is not found. -/
theorem assocLookup_eq_none_of_not_mem (d : List (String × Json)) (key : String)
    (h : key ∉ d.map Prod.fst) : assocLookup d key = none := by
  induction d with
  | nil => rfl
  | cons p rest ih =>
    obtain ⟨k, w⟩ := p
    simp only [List.map_cons, List.mem_cons, not_or] at h
    obtain ⟨h1, h2⟩ := h
    rw [assocLookup_cons, if_neg (fun e => h1 e.symm)]
    exact ih h2

/-- Lookup distributes over append: the left entries are consulted first. -/
theorem assocLookup_append (d e : List (String × Json)) (key : String) :
    assocLookup (d ++ e) key =
      match assocLookup d key with
      | some v => some v
      | none => assocLookup e key := by
  induction d with
  | nil => rfl
  | cons p rest ih =>
    obtain ⟨k, v⟩ := p
    rw [List.cons_append, assocLookup_cons, assocLookup_cons]
    by_cases h : k = key
    · rw [if_pos h, if_pos h]
    · rw [if_neg h, if_neg h]
      exact ih

/-- Updating every entry at one key leaves lookups of other keys alone. -/
theorem assocLookup_map_update_ne (d : List (String × Json)) (key : String) (v : Json)
    (k2 : String) (h : k2 ≠ key) :
    assocLookup (d.map (fun p => if p.1 = key then (key, v) else p)) k2 = assocLookup d k2 := by
  induction d with
  | nil => rfl
  | cons p rest ih =>
    obtain ⟨k, w⟩ := p
    by_cases hk : k = key
    · subst hk
      rw [List.map_cons]
      rw [show (if ((k, w) : String × Json).1 = k then ((k, v) : String × Json) else (k, w)) = (k, v)
        from if_pos rfl]
      rw [assocLookup_cons, assocLookup_cons]
      rw [if_neg (fun e => h e.symm), if_neg (fun e => h e.symm)]
      exact ih
    · rw [List.map_cons]
      rw [show (if ((k, w) : String × Json).1 = key then ((key, v) : String × Json) else (k, w)) = (k, w)
        from if_neg hk]
      rw [assocLookup_cons, assocLookup_cons]
      by_cases hk2 : k = k2
      · rw [if_pos hk2, if_pos hk2]
      · rw [if_neg hk2, if_neg hk2]
        exact ih

/-- Updating every entry at a present key makes its lookup yield the new
value. -/
theorem assocLookup_map_update_self (d : List (String × Json)) (key : String) (v : Json)
    (hmem : key ∈ d.map Prod.fst) :
    assocLookup (d.map (fun p => if p.1 = key then (key, v) else p)) key = some v := by
  induction d with
  | nil => simp at hmem
  | cons p rest ih =>
    obtain ⟨k, w⟩ := p
    by_cases hk : k = key
    · rw [List.map_cons]
      rw [show (if ((k, w) : String × Json).1 = key then ((key, v) : String × Json) else (k, w)) = (key, v)
        from if_pos hk]
      rw [assocLookup_cons, if_pos rfl]
    · have hmem2 : key ∈ rest.map Prod.fst := by
        simp only [List.map_cons, List.mem_cons] at hmem
        rcases hmem with h1 | h2
        · exact absurd h1.symm hk
        · exact h2
      rw [List.map_cons]
      rw [show (if ((k, w) : String × Json).1 = key then ((key, v) : String × Json) else (k, w)) = (k, w)
        from if_neg hk]
      rw [assocLookup_cons, if_neg hk]
      exact ih hmem2

/-- The dict update of one key is found by a lookup of that key. -/
theorem assocLookup_dictInsert_self (d : List (String × Json)) (key : String) (v : Json) :
    assocLookup (dictInsert d key v) key = some v := by
  by_cases hmem : key ∈ d.map Prod.fst
  · rw [dictInsert, if_pos hmem]
    exact assocLookup_map_update_self d key v hmem
  · rw [dictInsert, if_neg hmem, assocLookup_append,
      assocLookup_eq_none_of_not_mem d key hmem]
    show assocLookup [(key, v)] key = some v
    rw [assocLookup_cons, if_pos rfl]

/-- The dict update of one key leaves lookups of other keys alone. -/
theorem assocLookup_dictInsert_ne (d : List (String × Json)) (key : String) (v : Json)
    (k2 : String) (h : k2 ≠ key) :
    assocLookup (dictInsert d key v) k2 = assocLookup d k2 := by
  by_cases hmem : key ∈ d.map Prod.fst
  · rw [dictInsert, if_pos hmem]
    exact assocLookup_map_update_ne d key v k2 h
  · rw [dictInsert, if_neg hmem, assocLookup_append]
    cases hd : assocLookup d k2 with
    | some w => rfl
    | none =>
      show assocLookup [(key, v)] k2 = none
      rw [assocLookup_cons, if_neg (fun e => h e.symm)]
      rfl

/-- C3 counterexample: json_error applied to the MISSING_VALUE taxonomy
entry does not put the stable string code missing_value into the error
field of the envelope; the code prepends the err_ marker and a space. -/
theorem semoxy_C3_counterexample :
    objLookup (json_error APIError.MISSING_VALUE "d" []).body "error" ≠
      some (Json.str APIError.MISSING_VALUE.1) := by
  intro h
  rw [show objLookup (json_error APIError.MISSING_VALUE "d" []).body "error" =
        some (Json.str "err_ missing_value") from rfl] at h
  have h2 : ("err_ missing_value" : String) = "missing_value" := by
    injection h with h1
    injection h1
  exact absurd h2 (by decide)

/-- C3 (amended): for every taxonomy entry, every description and every
extra-field set, json_error is total and yields the envelope whose error
field is the string err_ plus a space plus the stable code, whose
description field is the given description, whose remaining fields are
exactly the extra fields, and whose status is the one associated with the
entry. -/
theorem semoxy_C3_amended (e : String × Nat) (_he : e ∈ APIError.all)
    (description : String) (extra : List (String × Json)) :
    (json_error e description extra).status = e.2 ∧
    objLookup (json_error e description extra).body "error" =
      some (Json.str ("err_ " ++ e.1)) ∧
    objLookup (json_error e description extra).body "description" =
      some (Json.str description) ∧
    ∀ k, k ≠ "error" → k ≠ "description" →
      objLookup (json_error e description extra).body k = assocLookup extra k := by
  refine ⟨rfl, ?_, ?_, ?_⟩
  · show assocLookup
      (dictInsert (dictInsert extra "error" (Json.str ("err_ " ++ e.1)))
        "description" (Json.str description)) "error" = some (Json.str ("err_ " ++ e.1))
    rw [assocLookup_dictInsert_ne _ _ _ _ (by decide : ("error" : String) ≠ "description"),
      assocLookup_dictInsert_self]
  · show assocLookup
      (dictInsert (dictInsert extra "error" (Json.str ("err_ " ++ e.1)))
        "description" (Json.str description)) "description" = some (Json.str description)
    rw [assocLookup_dictInsert_self]
  · intro k hk1 hk2
    show assocLookup
      (dictInsert (dictInsert extra "error" (Json.str ("err_ " ++ e.1)))
        "description" (Json.str description)) k = assocLookup extra k
    rw [assocLookup_dictInsert_ne _ _ _ _ hk2, assocLookup_dictInsert_ne _ _ _ _ hk1]

/-- C3 witness: the amended statement evaluated at the UNAUTHENTICATED
entry with a concrete description and one extra field. -/
theorem semoxy_C3_witness :
    (json_error APIError.UNAUTHENTICATED "nope" [("field", Json.str "x")]).status = 401 ∧
    objLookup (json_error APIError.UNAUTHENTICATED "nope" [("field", Json.str "x")]).body "error" =
      some (Json.str "err_ unauthenticated") :=
  ⟨(semoxy_C3_amended APIError.UNAUTHENTICATED (by decide) "nope" [("field", Json.str "x")]).1,
   (semoxy_C3_amended APIError.UNAUTHENTICATED (by decide) "nope" [("field", Json.str "x")]).2.1⟩

/-- C7: the login-state guard rejects with UNAUTHENTICATED when expecting a
login and no user is resolved, rejects with NO_PERMISSION when expecting no
login and a user is resolved, invokes the handler unchanged otherwise, and
the default of its parameter is true. -/
theorem semoxy_C7 (f : Request → PyResult) (req : Request) :
    (req.ctx.user = none →
      requires_login true f req =
        Except.ok (json_error APIError.UNAUTHENTICATED
          "you need to be logged in to access this endpoint" [])) ∧
    (∀ u, req.ctx.user = some u →
      requires_login false f req =
        Except.ok (json_error APIError.NO_PERMISSION
          "you can\x27t use this endpoint while logged in" [])) ∧
    (∀ u, req.ctx.user = some u → requires_login true f req = f req) ∧
    (req.ctx.user = none → requires_login false f req = f req) ∧
    requires_login_default = true := by
  refine ⟨?_, ?_, ?_, ?_, rfl⟩
  · intro h
    rw [requires_login, if_pos (by rw [h]; rfl)]
  · intro u h
    rw [requires_login, if_neg (by rw [h]; simp), if_pos (by rw [h]; rfl)]
  · intro u h
    rw [requires_login, if_neg (by rw [h]; simp), if_neg (by rw [h]; simp)]
  · intro h
    rw [requires_login, if_neg (by rw [h]; simp), if_neg (by rw [h]; simp)]

/-- C7 witness: the guard evaluated on a request without a user under the
default expectation, and on a request with a user under the inverted
expectation. -/
theorem semoxy_C7_witness :
    requires_login true fOk reqAnon =
      Except.ok (json_error APIError.UNAUTHENTICATED
        "you need to be logged in to access this endpoint" []) ∧
    requires_login false fOk reqAuth =
      Except.ok (json_error APIError.NO_PERMISSION
        "you can\x27t use this endpoint while logged in" []) :=
  ⟨(semoxy_C7 fOk reqAnon).1 rfl, (semoxy_C7 fOk reqAuth).2.1 sampleUser rfl⟩

/-- The key walk of requires_post_params picks exactly the first declared
key absent from the payload keys. -/
theorem first_missing_key_eq_find (json_keys : List String) (fields : List (String × Json)) :
    first_missing_key json_keys fields =
      json_keys.find? (fun k => decide (k ∉ fields.map Prod.fst)) := by
  induction json_keys with
  | nil => rfl
  | cons k rest ih =>
    by_cases h : k ∈ fields.map Prod.fst
    · rw [first_missing_key, if_pos h, ih, List.find?_cons_of_neg]
      simp [h]
    · rw [first_missing_key, if_neg h, List.find?_cons_of_pos]
      simp [h]

/-- On an object payload the loop of requires_post_params never raises and
produces exactly the MISSING_VALUE response of the first absent declared
key, if any. -/
theorem requires_post_params_loop_obj (json_keys : List String) (fields : List (String × Json)) :
    requires_post_params_loop json_keys (Json.obj fields) =
      Except.ok ((first_missing_key json_keys fields).map
        (fun prop => json_error APIError.MISSING_VALUE ("you need to specify " ++ prop)
          [("field", Json.str prop)])) := by
  induction json_keys with
  | nil => rfl
  | cons k rest ih =>
    simp only [requires_post_params_loop, first_missing_key]
    by_cases h : k ∈ fields.map Prod.fst
    · rw [if_pos h, if_pos h, ih]
    · rw [if_neg h, if_neg h]
      rfl

/-- C6: on a JSON-object payload the required-fields guard rejects with
MISSING_VALUE naming exactly the first declared key (in declaration order)
absent from the payload, and invokes the handler unchanged when every
declared key is present; the response names a single field. -/
theorem semoxy_C6 (json_keys : List String) (f : Request → PyResult) (req : Request)
    (fields : List (String × Json)) (hj : req.json = Json.obj fields) :
    requires_post_params json_keys f req =
      match json_keys.find? (fun k => decide (k ∉ fields.map Prod.fst)) with
      | some prop =>
        Except.ok (json_error APIError.MISSING_VALUE ("you need to specify " ++ prop)
          [("field", Json.str prop)])
      | none => f req := by
  rw [requires_post_params, hj, requires_post_params_loop_obj, ← first_missing_key_eq_find]
  cases hfm : first_missing_key json_keys fields with
  | some prop => rfl
  | none => rfl

/-- C6 witness: with declared keys a then b and a payload holding only a,
the guard answers the MISSING_VALUE error naming b. -/
theorem semoxy_C6_witness :
    requires_post_params ["a", "b"] fOk reqMissingB =
      Except.ok (json_error APIError.MISSING_VALUE "you need to specify b"
        [("field", Json.str "b")]) :=
  (semoxy_C6 ["a", "b"] fOk reqMissingB [("a", Json.null)] rfl).trans (by rfl)

/-- C1: wrapping a handler in requires_login true outside
requires_post_params a b, an unauthenticated request missing both fields
gets the UNAUTHENTICATED error, not the MISSING_VALUE error, and on every
request rejected by some guard of this chain the outcome does not depend on
the wrapped handler (the handler is never invoked). -/
theorem semoxy_C1 (f g : Request → PyResult) (req : Request) (fields : List (String × Json))
    (hu : req.ctx.user = none) (_hj : req.json = Json.obj fields)
    (_ha : "a" ∉ fields.map Prod.fst) (_hb : "b" ∉ fields.map Prod.fst) :
    requires_login true (requires_post_params ["a", "b"] f) req =
      Except.ok (json_error APIError.UNAUTHENTICATED
        "you need to be logged in to access this endpoint" []) ∧
    requires_login true (requires_post_params ["a", "b"] f) req ≠
      Except.ok (json_error APIError.MISSING_VALUE "you need to specify a"
        [("field", Json.str "a")]) ∧
    ∀ r : Request,
      (r.ctx.user = none ∨ (∀ flds, r.json ≠ Json.obj flds) ∨
        (∃ flds k, r.json = Json.obj flds ∧ first_missing_key ["a", "b"] flds = some k)) →
      requires_login true (requires_post_params ["a", "b"] f) r =
        requires_login true (requires_post_params ["a", "b"] g) r := by
  have e1 : requires_login true (requires_post_params ["a", "b"] f) req =
      Except.ok (json_error APIError.UNAUTHENTICATED
        "you need to be logged in to access this endpoint" []) := by
    rw [requires_login, if_pos (by rw [hu]; rfl)]
  refine ⟨e1, ?_, ?_⟩
  · intro h
    have h2 := e1.symm.trans h
    injection h2 with h3
    have h4 := congrArg HTTPResponse.status h3
    exact absurd h4 (by decide)
  · intro r hr
    rcases hr with hru | hnod | ⟨flds, k, hjr, hfk⟩
    · rw [requires_login, if_pos (by rw [hru]; rfl)]
      rw [requires_login, if_pos (by rw [hru]; rfl)]
    · cases hru : r.ctx.user with
      | none =>
        rw [requires_login, if_pos (by rw [hru]; rfl)]
        rw [requires_login, if_pos (by rw [hru]; rfl)]
      | some u =>
        have hno : ∀ h0 : Request → PyResult,
            requires_post_params ["a", "b"] h0 r = Except.error (PyExc.attributeError "keys") := by
          intro h0
          cases hjson : r.json with
          | obj flds => exact absurd hjson (hnod flds)
          | null => simp only [requires_post_params, requires_post_params_loop, hjson]
          | bool b => simp only [requires_post_params, requires_post_params_loop, hjson]
          | num n => simp only [requires_post_params, requires_post_params_loop, hjson]
          | str s => simp only [requires_post_params, requires_post_params_loop, hjson]
          | arr xs => simp only [requires_post_params, requires_post_params_loop, hjson]
        rw [requires_login, if_neg (by rw [hru]; simp), if_neg (by rw [hru]; simp)]
        rw [requires_login, if_neg (by rw [hru]; simp), if_neg (by rw [hru]; simp)]
        rw [hno f, hno g]
    · have hmv : ∀ h0 : Request → PyResult,
          requires_post_params ["a", "b"] h0 r =
            Except.ok (json_error APIError.MISSING_VALUE ("you need to specify " ++ k)
              [("field", Json.str k)]) := by
        intro h0
        rw [requires_post_params, hjr, requires_post_params_loop_obj, hfk]
        rfl
      cases hru : r.ctx.user with
      | none =>
        rw [requires_login, if_pos (by rw [hru]; rfl)]
        rw [requires_login, if_pos (by rw [hru]; rfl)]
      | some u =>
        rw [requires_login, if_neg (by rw [hru]; simp), if_neg (by rw [hru]; simp)]
        rw [requires_login, if_neg (by rw [hru]; simp), if_neg (by rw [hru]; simp)]
        rw [hmv f, hmv g]

/-- C1 witness: the chain evaluated on a concrete unauthenticated request
with an empty payload yields the UNAUTHENTICATED error. -/
theorem semoxy_C1_witness :
    requires_login true (requires_post_params ["a", "b"] fOk) reqAnon =
      Except.ok (json_error APIError.UNAUTHENTICATED
        "you need to be logged in to access this endpoint" []) :=
  (semoxy_C1 fOk fErr reqAnon [] rfl rfl (by decide) (by decide)).1

/-- C2: the login handler answers the same response value, the single
wrong-credentials response of status 401, both when the username is
unknown to the store and when the user exists but the password check
fails; the two failure causes are indistinguishable. -/
theorem semoxy_C2 (fetch_by_name : Json → Option UserRec)
    (check_password : UserRec → String → Bool) (create_session : UserRec → SessionRec)
    (r1 r2 : Request) (u1 u2 p2 : Json) (usr : UserRec)
    (h1u : objGetExc r1.json "username" = Except.ok u1)
    (h1f : fetch_by_name u1 = none)
    (h2u : objGetExc r2.json "username" = Except.ok u2)
    (h2f : fetch_by_name u2 = some usr)
    (h2p : objGetExc r2.json "password" = Except.ok p2)
    (h2c : check_password usr (pyStr p2) = false) :
    login_post fetch_by_name check_password create_session r1 =
      login_post fetch_by_name check_password create_session r2 ∧
    login_post fetch_by_name check_password create_session r1 =
      Except.ok wrong_credentials_response ∧
    wrong_credentials_response.status = 401 := by
  have e1 : login_post fetch_by_name check_password create_session r1 =
      Except.ok wrong_credentials_response := by
    simp only [login_post, h1u, h1f]
  have e2 : login_post fetch_by_name check_password create_session r2 =
      Except.ok wrong_credentials_response := by
    simp only [login_post, h2u, h2f, h2p, h2c]
    rfl
  exact ⟨e1.trans e2.symm, e1, rfl⟩

/-- C2 witness: concrete store with one user named bob; a login naming
alice and a login naming bob with a wrong password get the same 401
response. -/
theorem semoxy_C2_witness :
    login_post fetchW checkW mkSessW reqLogin1 = login_post fetchW checkW mkSessW reqLogin2 ∧
    login_post fetchW checkW mkSessW reqLogin1 = Except.ok wrong_credentials_response ∧
    wrong_credentials_response.status = 401 :=
  semoxy_C2 fetchW checkW mkSessW reqLogin1 reqLogin2 (Json.str "alice") (Json.str "bob")
    (Json.str "wrong") sampleUser rfl rfl rfl rfl rfl rfl

/-- Any token answered by the collision loop is absent from the store. -/
theorem get_new_ticket_loop_not_mem (db : List String) (gen : Nat → String) :
    ∀ fuel i t j, get_new_ticket_loop db gen fuel i = some (t, j) → t ∉ db := by
  intro fuel
  induction fuel with
  | zero =>
    intro i t j h
    exact absurd h (by simp [get_new_ticket_loop])
  | succ n ih =>
    intro i t j h
    simp only [get_new_ticket_loop] at h
    by_cases hmem : gen i ∈ db
    · rw [if_pos hmem] at h
      exact ih (i + 1) t j h
    · rw [if_neg hmem] at h
      injection h with h2
      injection h2 with h3 h4
      exact h3 ▸ hmem

/-- C5: the ticket token returned by get_new_ticket is never present in the
unconsumed-ticket store, and when exactly the first candidate collides the
loop regenerates exactly once and answers the second candidate. -/
theorem semoxy_C5 (db : List String) (gen : Nat → String) (fuel : Nat) :
    (∀ t i, get_new_ticket db gen fuel = some (t, i) → t ∉ db) ∧
    (gen 0 ∈ db → gen 1 ∉ db → 2 ≤ fuel → get_new_ticket db gen fuel = some (gen 1, 1)) := by
  constructor
  · intro t i h
    exact get_new_ticket_loop_not_mem db gen fuel 0 t i h
  · intro h0 h1 hf
    obtain ⟨f2, rfl⟩ : ∃ f2, fuel = f2 + 2 := ⟨fuel - 2, by omega⟩
    show (if gen 0 ∈ db then
            (if gen 1 ∈ db then get_new_ticket_loop db gen f2 2 else some (gen 1, 1))
          else some (gen 0, 0)) = some (gen 1, 1)
    rw [if_pos h0, if_neg h1]

/-- C5 witness: a store holding the first candidate forces exactly one
regeneration and the second candidate, which is not in the store, is
returned. -/
theorem semoxy_C5_witness :
    get_new_ticket dbW genW 5 = some ("y", 1) ∧ "y" ∉ dbW := by
  have h := (semoxy_C5 dbW genW 5).2 (by decide) (by decide) (by decide)
  exact ⟨h, (semoxy_C5 dbW genW 5).1 "y" 1 h⟩

/-- C8: on a request carrying a resolved resource, the resource-state guard
rejects with INVALID_SERVER_STATUS, whose status is 423, exactly when the
running flag differs from the expectation, invokes the handler when it
matches, and the same request passes once the flag is set to the expected
value. -/
theorem semoxy_C8 (online : Bool) (f : Request → PyResult) (req : Request) (s : ServerRec)
    (hs : req.ctx.server = some s) :
    (online ≠ s.running →
      requires_server_online online f req =
        Except.ok (json_error APIError.INVALID_SERVER_STATUS
          ("this endpoint requires the server to be " ++
            (if online then "online" else "offline")) [])) ∧
    (online = s.running → requires_server_online online f req = f req) ∧
    APIError.INVALID_SERVER_STATUS.2 = 423 ∧
    requires_server_online online f (set_server_running req online) =
      f (set_server_running req online) := by
  refine ⟨?_, ?_, rfl, ?_⟩
  · intro h
    simp only [requires_server_online, hs]
    rw [if_pos (bne_iff_ne.mpr h)]
  · intro h
    simp only [requires_server_online, hs]
    rw [if_neg (fun hb => bne_iff_ne.mp hb h)]
  · have hsrv : (set_server_running req online).ctx.server = some (ServerRec.mk online) := rfl
    simp only [requires_server_online, hsrv]
    rw [if_neg (fun hb => bne_iff_ne.mp hb rfl)]

/-- C8 witness: expecting online on a stopped resource yields the 423
error, and the identical request with the flag flipped reaches the
handler. -/
theorem semoxy_C8_witness :
    requires_server_online true fOk reqSrvOff =
      Except.ok (json_error APIError.INVALID_SERVER_STATUS
        "this endpoint requires the server to be online" []) ∧
    requires_server_online true fOk (set_server_running reqSrvOff true) =
      fOk (set_server_running reqSrvOff true) :=
  ⟨(semoxy_C8 true fOk reqSrvOff (ServerRec.mk false) rfl).1 (by decide),
   (semoxy_C8 true fOk reqSrvOff (ServerRec.mk false) rfl).2.2.2⟩

/-- C10: on a JSON-object payload the required-fields guard answers either
a MISSING_VALUE error or the handler result, and the schema-binding guard
answers either an INVALID_PAYLOAD_SCHEMA error or the handler result on
the validated object. On any non-object payload neither guard maps the
request to a taxonomy error: with no declared keys the required-fields
loop never touches the payload and invokes the handler, with a non-empty
key list the first iteration raises AttributeError, and the schema-binding
guard always raises TypeError at the double-star unpacking. -/
theorem semoxy_C10 {α : Type} (json_keys : List String) (f1 : Request → PyResult)
    (validate : List (String × Json) → Except (List Json) α) (f2 : Request → α → PyResult)
    (req : Request) :
    (∀ fields, req.json = Json.obj fields →
      (∃ k, requires_post_params json_keys f1 req =
        Except.ok (json_error APIError.MISSING_VALUE ("you need to specify " ++ k)
          [("field", Json.str k)])) ∨
      requires_post_params json_keys f1 req = f1 req) ∧
    (∀ fields, req.json = Json.obj fields →
      (∃ errs, bind_model validate f2 req =
        Except.ok (json_error APIError.INVALID_PAYLOAD_SCHEMA "invalid payload type"
          [("errors", Json.arr errs)])) ∨
      (∃ data, bind_model validate f2 req = f2 req data)) ∧
    ((∀ fields, req.json ≠ Json.obj fields) →
      (json_keys = [] → requires_post_params json_keys f1 req = f1 req) ∧
      (json_keys ≠ [] →
        requires_post_params json_keys f1 req = Except.error (PyExc.attributeError "keys")) ∧
      bind_model validate f2 req =
        Except.error (PyExc.typeError "argument after ** must be a mapping")) := by
  refine ⟨?_, ?_, ?_⟩
  · intro fields hj
    rw [requires_post_params, hj, requires_post_params_loop_obj]
    cases hfm : first_missing_key json_keys fields with
    | some k =>
      left
      exact ⟨k, rfl⟩
    | none =>
      right
      rfl
  · intro fields hj
    cases hv : validate fields with
    | error errs =>
      left
      exact ⟨errs, by simp only [bind_model, hj, hv]⟩
    | ok data =>
      right
      exact ⟨data, by simp only [bind_model, hj, hv]⟩
  · intro hnod
    refine ⟨?_, ?_, ?_⟩
    · intro hk
      subst hk
      rfl
    · intro hk
      cases json_keys with
      | nil => exact absurd rfl hk
      | cons k rest =>
        cases hjson : req.json with
        | obj flds => exact absurd hjson (hnod flds)
        | null => simp only [requires_post_params, requires_post_params_loop, hjson]
        | bool b => simp only [requires_post_params, requires_post_params_loop, hjson]
        | num n => simp only [requires_post_params, requires_post_params_loop, hjson]
        | str s2 => simp only [requires_post_params, requires_post_params_loop, hjson]
        | arr xs => simp only [requires_post_params, requires_post_params_loop, hjson]
    · cases hjson : req.json with
      | obj flds => exact absurd hjson (hnod flds)
      | null => simp only [bind_model, hjson]
      | bool b => simp only [bind_model, hjson]
      | num n => simp only [bind_model, hjson]
      | str s2 => simp only [bind_model, hjson]
      | arr xs => simp only [bind_model, hjson]

/-- C10 witness: on a request whose body parses to null, the
required-fields guard with no declared keys invokes the handler, with one
declared key raises AttributeError, and the schema-binding guard raises
TypeError; none of these is a taxonomy error response. -/
theorem semoxy_C10_witness :
    requires_post_params [] fOk reqNonObj = fOk reqNonObj ∧
    requires_post_params ["a"] fOk reqNonObj = Except.error (PyExc.attributeError "keys") ∧
    bind_model valW f2W reqNonObj =
      Except.error (PyExc.typeError "argument after ** must be a mapping") := by
  have h0 := (semoxy_C10 ([] : List String) fOk valW f2W reqNonObj).2.2
    (fun _ h => Json.noConfusion h)
  have h1 := (semoxy_C10 ["a"] fOk valW f2W reqNonObj).2.2
    (fun _ h => Json.noConfusion h)
  exact ⟨h0.1 rfl, h1.2.1 (by decide), h1.2.2⟩

/-- C4 (code slip): on an authenticated request with no User-Agent header
the open_ticket handler raises KeyError before the literal unknown-agent
fallback can apply, so no ticket is issued and no token is returned; the
fallback fires only when the header is present but empty, as the second
conjunct shows. -/
theorem semoxy_C4_bug :
    requires_login requires_login_default (open_ticket sampleTicketGen) reqNoAgent =
      Except.error (PyExc.keyError "User-Agent") ∧
    requires_login requires_login_default (open_ticket sampleTicketGen) reqEmptyAgent =
      Except.ok (json_res
        (Json.obj
          [("success", Json.str "ticket created"),
           ("data", Json.obj [("token", Json.str "unknown agent")])]) 200) := by
  constructor
  · rfl
  · rfl

/-- C9: the session-introspection endpoint always answers 200 and its body
is exactly the loggedIn flag when no session is resolved, and exactly the
loggedIn flag, the session expiration and the owning user id when one is;
in particular the body never carries the raw sid or any password data. -/
theorem semoxy_C9 (req : Request) :
    (check_session req).status = 200 ∧
    (check_session req).body =
      Json.obj
        (match req.ctx.session with
         | none => [("loggedIn", Json.bool false)]
         | some s =>
           [("loggedIn", Json.bool true), ("expiration", Json.num s.expiration),
            ("userId", Json.str s.userId)]) := by
  cases h : req.ctx.session with
  | none =>
    constructor
    · rw [check_session, h]
      rfl
    · rw [check_session, h]
      rfl
  | some s =>
    constructor
    · rw [check_session, h]
      rfl
    · rw [check_session, h]
      rfl

end Semoxy
